import Mathlib

/-!
# ArogyaSOS+ SMS service (`functions/index.js`)

A shallow embedding of the three Cloud Functions handlers `sendSMS`,
`sendSMSHTTP` and `processSMSQueue`, and theorems about them.

Each handler is a function from its inputs (the `twilio` section of the
functions configuration, which may be missing; the Twilio library; and the
request payload or the queue record) to the list of effects it performs, in
order, together with its outcome: the value it returns, or the error it
throws.  The Twilio library is an external collaborator and is a parameter:
both building a client and sending a message may throw.  Record-store
updates and HTTP responses are recorded as effects and do not throw.
Console logging is left out.
-/

namespace SmsService

/-! ## JavaScript values -/

/-- JavaScript values as the handlers see them.  Numbers are the
integer-valued ones.  A non-primitive value (array, nested object) is kept
as the string it converts to, which is all the handlers can observe of it
besides its being truthy. -/
inductive JSVal where
  | undefined
  | null
  | bool (b : Bool)
  | num (n : Int)
  | str (s : String)
  | obj (asString : String)
  | timestamp
  deriving DecidableEq

/-- An object with primitive-like properties: property names with their
values, first entry for a name wins. -/
abbrev JSObj := List (String × JSVal)

/-- Property read `o.k`; a property that is not there reads as `undefined`. -/
def getProp (o : JSObj) (k : String) : JSVal :=
  match o.lookup k with
  | some v => v
  | none => JSVal.undefined

/-- JavaScript truthiness (`ToBoolean`). -/
def truthy : JSVal → Bool
  | JSVal.undefined => false
  | JSVal.null => false
  | JSVal.bool b => b
  | JSVal.num n => n != 0
  | JSVal.str s => s != ""
  | JSVal.obj _ => true
  | JSVal.timestamp => true

/-- JavaScript string conversion (`ToString`), applied by `RegExp.test` to
its argument. -/
def toStringJS : JSVal → String
  | JSVal.undefined => "undefined"
  | JSVal.null => "null"
  | JSVal.bool true => "true"
  | JSVal.bool false => "false"
  | JSVal.num n => toString n
  | JSVal.str s => s
  | JSVal.obj r => r
  | JSVal.timestamp => "[object Object]"

/-- The operator `a || b`. -/
def jsOr (a b : JSVal) : JSVal := if truthy a then a else b

/-- The sentinel `admin.database.ServerValue.TIMESTAMP`. -/
def ServerValue_TIMESTAMP : JSVal := JSVal.timestamp

/-- How a handler ends: it returns a value, or it throws. -/
inductive Outcome (α : Type) where
  | returned (value : α)
  | threw (error : JSObj)
  deriving DecidableEq

/-- The `TypeError` that JavaScript throws on reading or destructuring a
property of `undefined` or `null`; its message depends on the engine and is
left out. -/
def typeError : JSObj := [("name", JSVal.str "TypeError")]

/-! ## The phone number pattern -/

/-- Whether a character list is matched by `^\+[1-9]\d{1,14}$`: a plus
sign, one character in `1`..`9`, then between 1 and 14 characters in
`0`..`9`, and nothing more. -/
def phoneRegexMatch : List Char → Bool
  | '+' :: d :: ds =>
      ('1' ≤ d && d ≤ '9') && (1 ≤ ds.length && ds.length ≤ 14) && ds.all Char.isDigit
  | _ => false

/-- The call `phoneRegex.test(v)` with `phoneRegex = /^\+[1-9]\d{1,14}$/`. -/
def phoneRegex_test (v : JSVal) : Bool := phoneRegexMatch (toStringJS v).toList

/-! ## Effects and collaborators -/

/-- Body of an HTTP response. -/
inductive ResBody where
  | text (s : String)
  | json (o : JSObj)
  deriving DecidableEq

/-- What a handler does to the outside world. -/
inductive Effect where
  /-- The call `res.set(name, value)`. -/
  | setHeader (name value : String)
  /-- The call `res.status(code).send(..)` or `res.status(code).json(..)`. -/
  | respond (code : Nat) (body : ResBody)
  /-- The call `snapshot.ref.update(fields)`. -/
  | update (fields : JSObj)
  /-- The gateway call `client.messages.create(opts)`. -/
  | messagesCreate (opts : JSObj)
  deriving DecidableEq

/-- The Twilio library.  `twilio accountSid authToken` is the call
`twilio(accountSid, authToken)` that builds a client: `Except.ok ()` when
the client is built, `Except.error e` when the call throws `e` (the library
throws when the account identifier does not begin with `AC`).
`create accountSid authToken opts` is `client.messages.create(opts)` on the
client built from those credentials: the message object on success, the
thrown error object on failure. -/
structure Twilio where
  twilio : JSVal → JSVal → Except JSObj Unit
  create : JSVal → JSVal → JSObj → Except JSObj JSObj

/-- An HTTP request: its method and its parsed body. -/
structure Request where
  method : String
  body : JSObj

/-! ## `sendSMS` -/

/-- The `catch (error)` block of `sendSMS`. -/
def sendSMS_catch (error : JSObj) : JSObj :=
  let errorMessage : JSVal :=
    if getProp error "code" = JSVal.num 21211 then
      JSVal.str "Invalid phone number"
    else if getProp error "code" = JSVal.num 21608 then
      JSVal.str "Unverified phone number. Please verify your Twilio number."
    else if truthy (getProp error "message") then
      getProp error "message"
    else
      JSVal.str "Failed to send SMS"
  [("success", JSVal.bool false),
   ("message", errorMessage),
   ("error", jsOr (getProp error "code") (JSVal.str "UNKNOWN_ERROR"))]

/-- The callable handler `sendSMS`.  `config` is `functions.config().twilio`,
`none` when the configuration has no `twilio` section: reading
`.account_sid` of it then throws, outside the `try`.  `data` is the request
payload, `none` when it is `null` (a call without argument): destructuring
it then throws, outside the `try`.  Gives the effects and the outcome. -/
def sendSMS (config : Option JSObj) (lib : Twilio) (data : Option JSObj) :
    List Effect × Outcome JSObj :=
  match config with
  | none => ([], Outcome.threw typeError)
  | some twilioSection =>
    let accountSid := getProp twilioSection "account_sid"
    let authToken := getProp twilioSection "auth_token"
    let twilioPhoneNumber := getProp twilioSection "phone_number"
    if !truthy accountSid || !truthy authToken || !truthy twilioPhoneNumber then
      ([], Outcome.returned
        [("success", JSVal.bool false),
         ("message", JSVal.str "SMS service not configured. Please contact support.")])
    else
      match data with
      | none => ([], Outcome.threw typeError)
      | some payload =>
        let phoneNumber := getProp payload "phoneNumber"
        let message := getProp payload "message"
        if !truthy phoneNumber || !truthy message then
          ([], Outcome.returned
            [("success", JSVal.bool false),
             ("message", JSVal.str "Phone number and message are required")])
        else if !phoneRegex_test phoneNumber then
          ([], Outcome.returned
            [("success", JSVal.bool false),
             ("message", JSVal.str
               "Invalid phone number format. Use E.164 format (e.g., +1234567890)")])
        else
          match lib.twilio accountSid authToken with
          | Except.error error => ([], Outcome.returned (sendSMS_catch error))
          | Except.ok () =>
            let opts : JSObj :=
              [("body", message), ("from", twilioPhoneNumber), ("to", phoneNumber)]
            match lib.create accountSid authToken opts with
            | Except.error error =>
              ([Effect.messagesCreate opts], Outcome.returned (sendSMS_catch error))
            | Except.ok twilioMessage =>
              ([Effect.messagesCreate opts],
               Outcome.returned
                 [("success", JSVal.bool true),
                  ("message", JSVal.str "SMS sent successfully"),
                  ("sid", getProp twilioMessage "sid")])

/-! ## `sendSMSHTTP` -/

/-- The three `res.set` calls that open `sendSMSHTTP`. -/
def corsHeaders : List Effect :=
  [Effect.setHeader "Access-Control-Allow-Origin" "*",
   Effect.setHeader "Access-Control-Allow-Methods" "POST, OPTIONS",
   Effect.setHeader "Access-Control-Allow-Headers" "Content-Type"]

/-- The `catch (error)` block of `sendSMSHTTP`. -/
def sendSMSHTTP_catch (error : JSObj) : List Effect :=
  let errorMessage : JSVal :=
    if getProp error "code" = JSVal.num 21211 then
      JSVal.str "Invalid phone number"
    else if getProp error "code" = JSVal.num 21608 then
      JSVal.str "Unverified phone number. Please verify your Twilio number."
    else if truthy (getProp error "message") then
      getProp error "message"
    else
      JSVal.str "Failed to send SMS"
  [Effect.respond 500 (ResBody.json
    [("success", JSVal.bool false),
     ("message", errorMessage),
     ("error", jsOr (getProp error "code") (JSVal.str "UNKNOWN_ERROR"))])]

/-- The HTTP handler `sendSMSHTTP`.  `config` is `functions.config().twilio`,
`none` when the configuration has no `twilio` section: reading
`.account_sid` of it then throws, outside the `try`, after the headers are
set and before any response is sent.  Gives the effects, in order, and the
outcome. -/
def sendSMSHTTP (config : Option JSObj) (lib : Twilio) (req : Request) :
    List Effect × Outcome Unit :=
  if req.method = "OPTIONS" then
    (corsHeaders ++ [Effect.respond 204 (ResBody.text "")], Outcome.returned ())
  else if req.method ≠ "POST" then
    (corsHeaders ++ [Effect.respond 405 (ResBody.json
      [("success", JSVal.bool false), ("message", JSVal.str "Method not allowed")])],
     Outcome.returned ())
  else
    match config with
    | none => (corsHeaders, Outcome.threw typeError)
    | some twilioSection =>
      let accountSid := getProp twilioSection "account_sid"
      let authToken := getProp twilioSection "auth_token"
      let twilioPhoneNumber := getProp twilioSection "phone_number"
      if !truthy accountSid || !truthy authToken || !truthy twilioPhoneNumber then
        (corsHeaders ++ [Effect.respond 500 (ResBody.json
          [("success", JSVal.bool false),
           ("message", JSVal.str "SMS service not configured")])],
         Outcome.returned ())
      else
        let phoneNumber := getProp req.body "phoneNumber"
        let message := getProp req.body "message"
        if !truthy phoneNumber || !truthy message then
          (corsHeaders ++ [Effect.respond 400 (ResBody.json
            [("success", JSVal.bool false),
             ("message", JSVal.str "Phone number and message are required")])],
           Outcome.returned ())
        else if !phoneRegex_test phoneNumber then
          (corsHeaders ++ [Effect.respond 400 (ResBody.json
            [("success", JSVal.bool false),
             ("message", JSVal.str
               "Invalid phone number format. Use E.164 format (e.g., +1234567890)")])],
           Outcome.returned ())
        else
          match lib.twilio accountSid authToken with
          | Except.error error => (corsHeaders ++ sendSMSHTTP_catch error, Outcome.returned ())
          | Except.ok () =>
            let opts : JSObj :=
              [("body", message), ("from", twilioPhoneNumber), ("to", phoneNumber)]
            match lib.create accountSid authToken opts with
            | Except.error error =>
              (corsHeaders ++ Effect.messagesCreate opts :: sendSMSHTTP_catch error,
               Outcome.returned ())
            | Except.ok twilioMessage =>
              (corsHeaders ++
                [Effect.messagesCreate opts,
                 Effect.respond 200 (ResBody.json
                   [("success", JSVal.bool true),
                    ("message", JSVal.str "SMS sent successfully"),
                    ("sid", getProp twilioMessage "sid")])],
               Outcome.returned ())

/-! ## `processSMSQueue` -/

/-- The `catch (error)` block of `processSMSQueue`. -/
def processSMSQueue_catch (error : JSObj) : List Effect :=
  let errorMessage : JSVal :=
    if getProp error "code" = JSVal.num 21211 then
      JSVal.str "Invalid phone number"
    else if getProp error "code" = JSVal.num 21608 then
      JSVal.str "Unverified phone number"
    else if truthy (getProp error "message") then
      getProp error "message"
    else
      JSVal.str "Failed to send SMS"
  [Effect.update
    [("status", JSVal.str "failed"),
     ("error", errorMessage),
     ("errorCode", jsOr (getProp error "code") (JSVal.str "UNKNOWN_ERROR")),
     ("failedAt", ServerValue_TIMESTAMP)]]

/-- The database trigger `processSMSQueue`.  `smsData` is `snapshot.val()`.
`config` is `functions.config().twilio`, `none` when the configuration has
no `twilio` section: reading `.account_sid` of it then throws, outside the
`try`, after the status guard and the field check.  Gives the effects, in
order, and the outcome. -/
def processSMSQueue (config : Option JSObj) (lib : Twilio) (smsData : JSObj) :
    List Effect × Outcome JSVal :=
  if getProp smsData "status" ≠ JSVal.str "pending" then
    ([], Outcome.returned JSVal.null)
  else
    let phoneNumber := getProp smsData "phoneNumber"
    let message := getProp smsData "message"
    if !truthy phoneNumber || !truthy message then
      ([Effect.update [("status", JSVal.str "failed"), ("error", JSVal.str "Invalid data")]],
       Outcome.returned JSVal.null)
    else
      match config with
      | none => ([], Outcome.threw typeError)
      | some twilioSection =>
        let accountSid := getProp twilioSection "account_sid"
        let authToken := getProp twilioSection "auth_token"
        let twilioPhoneNumber := getProp twilioSection "phone_number"
        if !truthy accountSid || !truthy authToken || !truthy twilioPhoneNumber then
          ([Effect.update
              [("status", JSVal.str "failed"),
               ("error", JSVal.str "SMS service not configured")]],
           Outcome.returned JSVal.null)
        else
          match lib.twilio accountSid authToken with
          | Except.error error => (processSMSQueue_catch error, Outcome.returned JSVal.null)
          | Except.ok () =>
            let opts : JSObj :=
              [("body", message), ("from", twilioPhoneNumber), ("to", phoneNumber)]
            match lib.create accountSid authToken opts with
            | Except.error error =>
              (Effect.update [("status", JSVal.str "processing")] ::
                 Effect.messagesCreate opts :: processSMSQueue_catch error,
               Outcome.returned JSVal.null)
            | Except.ok twilioMessage =>
              ([Effect.update [("status", JSVal.str "processing")],
                Effect.messagesCreate opts,
                Effect.update
                  [("status", JSVal.str "completed"),
                   ("twilioSid", getProp twilioMessage "sid"),
                   ("completedAt", ServerValue_TIMESTAMP)]],
               Outcome.returned JSVal.null)

/-! ## Observations on effect lists -/

/-- The store updates among the effects, in order. -/
def updates : List Effect → List JSObj
  | [] => []
  | Effect.update f :: es => f :: updates es
  | _ :: es => updates es

/-- The gateway calls among the effects, in order. -/
def gatewayCalls : List Effect → List JSObj
  | [] => []
  | Effect.messagesCreate o :: es => o :: gatewayCalls es
  | _ :: es => gatewayCalls es

/-- The HTTP responses among the effects, in order. -/
def responses : List Effect → List (Nat × ResBody)
  | [] => []
  | Effect.respond c b :: es => (c, b) :: responses es
  | _ :: es => responses es

/-- The status values written by the store updates, in order. -/
def statusWrites (es : List Effect) : List JSVal :=
  (updates es).map (fun f => getProp f "status")

/-- Writing one property of a stored record. -/
def setProp (o : JSObj) (k : String) (v : JSVal) : JSObj :=
  match o with
  | [] => [(k, v)]
  | (k', v') :: rest => if k' = k then (k, v) :: rest else (k', v') :: setProp rest k v

/-- The record store applying `update(fields)` to a stored record: each
named property is overwritten, the others are kept. -/
def applyUpdate (record : JSObj) (fields : JSObj) : JSObj :=
  fields.foldl (fun r kv => setProp r kv.1 kv.2) record

/-- The stored record after the worker has handled a creation event carrying
the record as its snapshot. -/
def recordAfter (config : Option JSObj) (lib : Twilio) (record : JSObj) : JSObj :=
  (updates (processSMSQueue config lib record).1).foldl applyUpdate record

/-- Delivering the creation event `n` times in a row. -/
def replay (config : Option JSObj) (lib : Twilio) : Nat → JSObj → JSObj
  | 0, record => record
  | n + 1, record => replay config lib n (recordAfter config lib record)

/-! ## Sample inputs, shared values and predicates -/

/-- A configuration with all three settings present. -/
def sampleConfig : JSObj :=
  [("account_sid", JSVal.str "AC0123456789abcdef"),
   ("auth_token", JSVal.str "secret"),
   ("phone_number", JSVal.str "+15005550006")]

/-- The queue record of the specification's examples. -/
def sampleRecord : JSObj :=
  [("status", JSVal.str "pending"),
   ("phoneNumber", JSVal.str "+14155552671"),
   ("message", JSVal.str "hi")]

/-- A library whose client is built and whose send throws the given error. -/
def failingLib (error : JSObj) : Twilio :=
  { twilio := fun _ _ => Except.ok (), create := fun _ _ _ => Except.error error }

/-- A library whose client is built and whose send returns the given message. -/
def succeedingLib (twilioMessage : JSObj) : Twilio :=
  { twilio := fun _ _ => Except.ok (), create := fun _ _ _ => Except.ok twilioMessage }

/-- The options object `{body: message, from: twilioPhoneNumber, to: phoneNumber}`
that a handler passes to `client.messages.create`; `payload` is the request
payload or the queue record. -/
def createOpts (config payload : JSObj) : JSObj :=
  [("body", getProp payload "message"),
   ("from", getProp config "phone_number"),
   ("to", getProp payload "phoneNumber")]

/-- A configuration whose account identifier is the placeholder of the setup
instructions: present, but not a Twilio account identifier. -/
def placeholderConfig : JSObj :=
  [("account_sid", JSVal.str "YOUR_ACCOUNT_SID"),
   ("auth_token", JSVal.str "YOUR_AUTH_TOKEN"),
   ("phone_number", JSVal.str "+15005550006")]

/-- A library that refuses to build a client unless the account identifier
begins with `AC`, and whose send returns a message with sid `SM1`. -/
def checkingLib : Twilio :=
  { twilio := fun accountSid _ =>
      match (toStringJS accountSid).toList with
      | 'A' :: 'C' :: _ => Except.ok ()
      | _ => Except.error [("message", JSVal.str "accountSid must start with AC")]
    create := fun _ _ _ => Except.ok [("sid", JSVal.str "SM1")] }

/-- The statuses that end a record's life: 'completed' and 'failed'. -/
def isTerminal (v : JSVal) : Prop := v = JSVal.str "completed" ∨ v = JSVal.str "failed"

/-- All three settings are present and non-empty. -/
def configured (config : JSObj) : Prop :=
  truthy (getProp config "account_sid") = true
  ∧ truthy (getProp config "auth_token") = true
  ∧ truthy (getProp config "phone_number") = true

instance (config : JSObj) : Decidable (configured config) := by
  unfold configured; infer_instance

/-- The failure object for a missing field. -/
def missingField : JSObj :=
  [("success", JSVal.bool false),
   ("message", JSVal.str "Phone number and message are required")]

/-- The failure object for a phone number of the wrong format. -/
def invalidPhoneFormat : JSObj :=
  [("success", JSVal.bool false),
   ("message", JSVal.str "Invalid phone number format. Use E.164 format (e.g., +1234567890)")]

/-- A request payload with the two fields. -/
def payloadOf (phoneNumber message : JSVal) : JSObj :=
  [("phoneNumber", phoneNumber), ("message", message)]

/-- The error mapping that the three `catch` blocks share, for a thrown error
`error`, a reported `message` and a reported `code`; `unverifiedText` is the
text reported for vendor code 21608. -/
def ErrorMapping (unverifiedText : String) (error : JSObj) (message code : JSVal) : Prop :=
  (getProp error "code" = JSVal.num 21211 → message = JSVal.str "Invalid phone number")
  ∧ (getProp error "code" = JSVal.num 21608 → message = JSVal.str unverifiedText)
  ∧ (getProp error "code" ≠ JSVal.num 21211 → getProp error "code" ≠ JSVal.num 21608
      → truthy (getProp error "message") = true → message = getProp error "message")
  ∧ (getProp error "code" ≠ JSVal.num 21211 → getProp error "code" ≠ JSVal.num 21608
      → truthy (getProp error "message") = false → message = JSVal.str "Failed to send SMS")
  ∧ (truthy (getProp error "code") = true → code = getProp error "code")
  ∧ (truthy (getProp error "code") = false → code = JSVal.str "UNKNOWN_ERROR")

/-- A queue record whose phone number is not in E.164 format. -/
def badPhoneRecord : JSObj :=
  [("status", JSVal.str "pending"),
   ("phoneNumber", JSVal.str "1234567890"),
   ("message", JSVal.str "hi")]

/-! ## Theorems -/

/-- C1: a pending record with non-empty phoneNumber and message, all three
credentials configured, and a gateway call that throws an error with code
21211: the worker writes `{status: 'processing'}`, then calls the gateway,
then writes status 'failed', error 'Invalid phone number', errorCode 21211
and failedAt the server timestamp; these are its only two store updates,
and it returns null. -/
theorem processSMSQueue_failing_send (config : JSObj) (lib : Twilio) (smsData error : JSObj)
    (hstatus : getProp smsData "status" = JSVal.str "pending")
    (hphone : truthy (getProp smsData "phoneNumber") = true)
    (hmessage : truthy (getProp smsData "message") = true)
    (hsid : truthy (getProp config "account_sid") = true)
    (htoken : truthy (getProp config "auth_token") = true)
    (hfrom : truthy (getProp config "phone_number") = true)
    (hclient : lib.twilio (getProp config "account_sid") (getProp config "auth_token")
      = Except.ok ())
    (hsend : lib.create (getProp config "account_sid") (getProp config "auth_token")
      (createOpts config smsData) = Except.error error)
    (hcode : getProp error "code" = JSVal.num 21211) :
    (processSMSQueue (some config) lib smsData).1 =
      [Effect.update [("status", JSVal.str "processing")],
       Effect.messagesCreate (createOpts config smsData),
       Effect.update
         [("status", JSVal.str "failed"),
          ("error", JSVal.str "Invalid phone number"),
          ("errorCode", JSVal.num 21211),
          ("failedAt", ServerValue_TIMESTAMP)]]
    ∧ updates (processSMSQueue (some config) lib smsData).1 =
      [[("status", JSVal.str "processing")],
       [("status", JSVal.str "failed"),
        ("error", JSVal.str "Invalid phone number"),
        ("errorCode", JSVal.num 21211),
        ("failedAt", ServerValue_TIMESTAMP)]]
    ∧ (processSMSQueue (some config) lib smsData).2 = Outcome.returned JSVal.null := by
  unfold createOpts at hsend
  have hor : jsOr (JSVal.num 21211) (JSVal.str "UNKNOWN_ERROR") = JSVal.num 21211 := rfl
  simp [processSMSQueue, processSMSQueue_catch, hstatus, hphone, hmessage, hsid, htoken, hfrom,
    hclient, hsend, hcode, hor, updates, createOpts]

/-- The failing send on the sample record with an error of code 21211. -/
theorem processSMSQueue_failing_send_witness :
    (processSMSQueue (some sampleConfig) (failingLib [("code", JSVal.num 21211)]) sampleRecord).1 =
      [Effect.update [("status", JSVal.str "processing")],
       Effect.messagesCreate (createOpts sampleConfig sampleRecord),
       Effect.update
         [("status", JSVal.str "failed"),
          ("error", JSVal.str "Invalid phone number"),
          ("errorCode", JSVal.num 21211),
          ("failedAt", ServerValue_TIMESTAMP)]]
    ∧ updates (processSMSQueue (some sampleConfig) (failingLib [("code", JSVal.num 21211)])
        sampleRecord).1 =
      [[("status", JSVal.str "processing")],
       [("status", JSVal.str "failed"),
        ("error", JSVal.str "Invalid phone number"),
        ("errorCode", JSVal.num 21211),
        ("failedAt", ServerValue_TIMESTAMP)]]
    ∧ (processSMSQueue (some sampleConfig) (failingLib [("code", JSVal.num 21211)])
        sampleRecord).2 = Outcome.returned JSVal.null :=
  processSMSQueue_failing_send sampleConfig (failingLib [("code", JSVal.num 21211)])
    sampleRecord [("code", JSVal.num 21211)]
    (by decide) (by decide) (by decide) (by decide) (by decide) (by decide) rfl rfl (by decide)

/-- C2: a pending record with non-empty phoneNumber and message, all three
credentials configured, and a gateway call that returns a message object:
the worker writes `{status: 'processing'}`, then calls the gateway, then
writes status 'completed', twilioSid the returned sid and completedAt the
server timestamp; these are its only two store updates, and none of them
sets status 'failed', error or errorCode. -/
theorem processSMSQueue_succeeding_send (config : JSObj) (lib : Twilio)
    (smsData twilioMessage : JSObj)
    (hstatus : getProp smsData "status" = JSVal.str "pending")
    (hphone : truthy (getProp smsData "phoneNumber") = true)
    (hmessage : truthy (getProp smsData "message") = true)
    (hsid : truthy (getProp config "account_sid") = true)
    (htoken : truthy (getProp config "auth_token") = true)
    (hfrom : truthy (getProp config "phone_number") = true)
    (hclient : lib.twilio (getProp config "account_sid") (getProp config "auth_token")
      = Except.ok ())
    (hsend : lib.create (getProp config "account_sid") (getProp config "auth_token")
      (createOpts config smsData) = Except.ok twilioMessage) :
    (processSMSQueue (some config) lib smsData).1 =
      [Effect.update [("status", JSVal.str "processing")],
       Effect.messagesCreate (createOpts config smsData),
       Effect.update
         [("status", JSVal.str "completed"),
          ("twilioSid", getProp twilioMessage "sid"),
          ("completedAt", ServerValue_TIMESTAMP)]]
    ∧ updates (processSMSQueue (some config) lib smsData).1 =
      [[("status", JSVal.str "processing")],
       [("status", JSVal.str "completed"),
        ("twilioSid", getProp twilioMessage "sid"),
        ("completedAt", ServerValue_TIMESTAMP)]]
    ∧ (∀ f ∈ updates (processSMSQueue (some config) lib smsData).1,
        getProp f "status" ≠ JSVal.str "failed"
        ∧ f.lookup "error" = none ∧ f.lookup "errorCode" = none) := by
  unfold createOpts at hsend
  have htrace : (processSMSQueue (some config) lib smsData).1 =
      [Effect.update [("status", JSVal.str "processing")],
       Effect.messagesCreate (createOpts config smsData),
       Effect.update
         [("status", JSVal.str "completed"),
          ("twilioSid", getProp twilioMessage "sid"),
          ("completedAt", ServerValue_TIMESTAMP)]] := by
    simp [processSMSQueue, hstatus, hphone, hmessage, hsid, htoken, hfrom,
      hclient, hsend, createOpts]
  refine ⟨htrace, ?_, ?_⟩
  · rw [htrace]; rfl
  · rw [htrace]
    intro f hf
    simp only [updates, List.mem_cons, List.mem_singleton, List.not_mem_nil, or_false] at hf
    rcases hf with rfl | rfl
    · decide
    · refine ⟨?_, ?_, ?_⟩ <;> simp [getProp, List.lookup]

/-- The succeeding send on the sample record with sid `SM1`. -/
theorem processSMSQueue_succeeding_send_witness :
    (processSMSQueue (some sampleConfig) (succeedingLib [("sid", JSVal.str "SM1")]) sampleRecord).1 =
      [Effect.update [("status", JSVal.str "processing")],
       Effect.messagesCreate (createOpts sampleConfig sampleRecord),
       Effect.update
         [("status", JSVal.str "completed"),
          ("twilioSid", getProp [("sid", JSVal.str "SM1")] "sid"),
          ("completedAt", ServerValue_TIMESTAMP)]]
    ∧ updates (processSMSQueue (some sampleConfig) (succeedingLib [("sid", JSVal.str "SM1")])
        sampleRecord).1 =
      [[("status", JSVal.str "processing")],
       [("status", JSVal.str "completed"),
        ("twilioSid", getProp [("sid", JSVal.str "SM1")] "sid"),
        ("completedAt", ServerValue_TIMESTAMP)]]
    ∧ (∀ f ∈ updates (processSMSQueue (some sampleConfig) (succeedingLib [("sid", JSVal.str "SM1")])
          sampleRecord).1,
        getProp f "status" ≠ JSVal.str "failed"
        ∧ f.lookup "error" = none ∧ f.lookup "errorCode" = none) :=
  processSMSQueue_succeeding_send sampleConfig (succeedingLib [("sid", JSVal.str "SM1")])
    sampleRecord [("sid", JSVal.str "SM1")]
    (by decide) (by decide) (by decide) (by decide) (by decide) (by decide) rfl rfl

/-- The guard of `processSMSQueue`: a record that is not pending gives no
effect at all. -/
theorem processSMSQueue_not_pending (config : Option JSObj) (lib : Twilio) (smsData : JSObj)
    (hstatus : getProp smsData "status" ≠ JSVal.str "pending") :
    processSMSQueue config lib smsData = ([], Outcome.returned JSVal.null) := by
  simp [processSMSQueue, hstatus]

/-- C3: for a record whose status is not 'pending', whatever the rest of
the record, the configuration and the library, the worker performs no
effect (no store update, no gateway call) and returns null; and delivering
the creation event any number of times leaves the stored record as it is. -/
theorem processSMSQueue_guard (config : Option JSObj) (lib : Twilio) (smsData : JSObj)
    (hstatus : getProp smsData "status" ≠ JSVal.str "pending") :
    (processSMSQueue config lib smsData).1 = []
    ∧ updates (processSMSQueue config lib smsData).1 = []
    ∧ gatewayCalls (processSMSQueue config lib smsData).1 = []
    ∧ (processSMSQueue config lib smsData).2 = Outcome.returned JSVal.null
    ∧ ∀ n : Nat, replay config lib n smsData = smsData := by
  have h := processSMSQueue_not_pending config lib smsData hstatus
  have hrec : recordAfter config lib smsData = smsData := by
    simp [recordAfter, h, updates]
  refine ⟨by rw [h], by rw [h]; rfl, by rw [h]; rfl, by rw [h], ?_⟩
  intro n
  induction n with
  | zero => rfl
  | succ k ih => simp only [replay, hrec, ih]

/-- The guard on a record that is already completed. -/
theorem processSMSQueue_guard_witness :
    (processSMSQueue (some sampleConfig) (succeedingLib [("sid", JSVal.str "SM1")])
        [("status", JSVal.str "completed"), ("twilioSid", JSVal.str "SM0")]).1 = []
    ∧ updates (processSMSQueue (some sampleConfig) (succeedingLib [("sid", JSVal.str "SM1")])
        [("status", JSVal.str "completed"), ("twilioSid", JSVal.str "SM0")]).1 = []
    ∧ gatewayCalls (processSMSQueue (some sampleConfig) (succeedingLib [("sid", JSVal.str "SM1")])
        [("status", JSVal.str "completed"), ("twilioSid", JSVal.str "SM0")]).1 = []
    ∧ (processSMSQueue (some sampleConfig) (succeedingLib [("sid", JSVal.str "SM1")])
        [("status", JSVal.str "completed"), ("twilioSid", JSVal.str "SM0")]).2 = Outcome.returned JSVal.null
    ∧ ∀ n : Nat, replay (some sampleConfig) (succeedingLib [("sid", JSVal.str "SM1")]) n
        [("status", JSVal.str "completed"), ("twilioSid", JSVal.str "SM0")]
        = [("status", JSVal.str "completed"), ("twilioSid", JSVal.str "SM0")] :=
  processSMSQueue_guard (some sampleConfig) (succeedingLib [("sid", JSVal.str "SM1")])
    [("status", JSVal.str "completed"), ("twilioSid", JSVal.str "SM0")] (by decide)

/-- The status written by the `catch` block of the worker is 'failed', in a
single update. -/
theorem processSMSQueue_catch_status (error : JSObj) :
    statusWrites (processSMSQueue_catch error) = [JSVal.str "failed"]
    ∧ gatewayCalls (processSMSQueue_catch error) = []
    ∧ updates (processSMSQueue_catch error) ≠ [] := by
  simp [processSMSQueue_catch, statusWrites, updates, gatewayCalls, getProp, List.lookup]

/-- The six ways through `processSMSQueue`. -/
theorem processSMSQueue_paths (config : JSObj) (lib : Twilio) (smsData : JSObj) :
    (getProp smsData "status" ≠ JSVal.str "pending"
      ∧ processSMSQueue (some config) lib smsData = ([], Outcome.returned JSVal.null))
    ∨ (getProp smsData "status" = JSVal.str "pending"
      ∧ (truthy (getProp smsData "phoneNumber") = false
          ∨ truthy (getProp smsData "message") = false)
      ∧ processSMSQueue (some config) lib smsData =
        ([Effect.update [("status", JSVal.str "failed"), ("error", JSVal.str "Invalid data")]],
         Outcome.returned JSVal.null))
    ∨ (getProp smsData "status" = JSVal.str "pending"
      ∧ truthy (getProp smsData "phoneNumber") = true
      ∧ truthy (getProp smsData "message") = true
      ∧ ¬ configured config
      ∧ processSMSQueue (some config) lib smsData =
        ([Effect.update
            [("status", JSVal.str "failed"), ("error", JSVal.str "SMS service not configured")]],
         Outcome.returned JSVal.null))
    ∨ (getProp smsData "status" = JSVal.str "pending"
      ∧ truthy (getProp smsData "phoneNumber") = true
      ∧ truthy (getProp smsData "message") = true
      ∧ configured config
      ∧ ∃ error, lib.twilio (getProp config "account_sid") (getProp config "auth_token")
          = Except.error error
        ∧ processSMSQueue (some config) lib smsData = (processSMSQueue_catch error, Outcome.returned JSVal.null))
    ∨ (getProp smsData "status" = JSVal.str "pending"
      ∧ truthy (getProp smsData "phoneNumber") = true
      ∧ truthy (getProp smsData "message") = true
      ∧ configured config
      ∧ lib.twilio (getProp config "account_sid") (getProp config "auth_token") = Except.ok ()
      ∧ ∃ error, lib.create (getProp config "account_sid") (getProp config "auth_token")
          (createOpts config smsData) = Except.error error
        ∧ processSMSQueue (some config) lib smsData =
          (Effect.update [("status", JSVal.str "processing")] ::
             Effect.messagesCreate (createOpts config smsData) :: processSMSQueue_catch error,
           Outcome.returned JSVal.null))
    ∨ (getProp smsData "status" = JSVal.str "pending"
      ∧ truthy (getProp smsData "phoneNumber") = true
      ∧ truthy (getProp smsData "message") = true
      ∧ configured config
      ∧ lib.twilio (getProp config "account_sid") (getProp config "auth_token") = Except.ok ()
      ∧ ∃ twilioMessage, lib.create (getProp config "account_sid") (getProp config "auth_token")
          (createOpts config smsData) = Except.ok twilioMessage
        ∧ processSMSQueue (some config) lib smsData =
          ([Effect.update [("status", JSVal.str "processing")],
            Effect.messagesCreate (createOpts config smsData),
            Effect.update
              [("status", JSVal.str "completed"),
               ("twilioSid", getProp twilioMessage "sid"),
               ("completedAt", ServerValue_TIMESTAMP)]],
           Outcome.returned JSVal.null)) := by
  by_cases hs : getProp smsData "status" = JSVal.str "pending"
  swap
  · exact Or.inl ⟨hs, by simp [processSMSQueue, hs]⟩
  right
  by_cases hp : truthy (getProp smsData "phoneNumber") = true
  swap
  · simp only [Bool.not_eq_true] at hp
    exact Or.inl ⟨hs, Or.inl hp, by simp [processSMSQueue, hs, hp]⟩
  by_cases hm : truthy (getProp smsData "message") = true
  swap
  · simp only [Bool.not_eq_true] at hm
    exact Or.inl ⟨hs, Or.inr hm, by simp [processSMSQueue, hs, hm]⟩
  right
  by_cases hc : configured config
  swap
  · refine Or.inl ⟨hs, hp, hm, hc, ?_⟩
    have hc' : truthy (getProp config "account_sid") = false
        ∨ truthy (getProp config "auth_token") = false
        ∨ truthy (getProp config "phone_number") = false := by
      unfold configured at hc
      by_contra hne
      simp only [not_or, Bool.not_eq_false] at hne
      exact hc hne
    rcases hc' with h | h | h <;> simp [processSMSQueue, hs, hp, hm, h]
  right
  obtain ⟨h1, h2, h3⟩ := hc
  cases ht : lib.twilio (getProp config "account_sid") (getProp config "auth_token") with
  | error e =>
    exact Or.inl ⟨hs, hp, hm, ⟨h1, h2, h3⟩, e, rfl,
      by simp [processSMSQueue, hs, hp, hm, h1, h2, h3, ht]⟩
  | ok u =>
    right
    cases hg : lib.create (getProp config "account_sid") (getProp config "auth_token")
        (createOpts config smsData) with
    | error e =>
      refine Or.inl ⟨hs, hp, hm, ⟨h1, h2, h3⟩, rfl, e, rfl, ?_⟩
      unfold createOpts at hg
      simp [processSMSQueue, hs, hp, hm, h1, h2, h3, ht, hg, createOpts]
    | ok m =>
      refine Or.inr ⟨hs, hp, hm, ⟨h1, h2, h3⟩, rfl, m, rfl, ?_⟩
      unfold createOpts at hg
      simp [processSMSQueue, hs, hp, hm, h1, h2, h3, ht, hg, createOpts]

/-- With no `twilio` section in the configuration, a pending record with
both fields makes the worker throw without any effect: the record stays
pending. -/
theorem processSMSQueue_no_section (lib : Twilio) (smsData : JSObj)
    (hstatus : getProp smsData "status" = JSVal.str "pending")
    (hphone : truthy (getProp smsData "phoneNumber") = true)
    (hmessage : truthy (getProp smsData "message") = true) :
    processSMSQueue none lib smsData = ([], Outcome.threw typeError) := by
  simp [processSMSQueue, hstatus, hphone, hmessage]

/-- With no `twilio` section in the configuration the worker never calls
the gateway. -/
theorem processSMSQueue_no_section_calls (lib : Twilio) (smsData : JSObj) :
    gatewayCalls (processSMSQueue none lib smsData).1 = [] := by
  by_cases hs : getProp smsData "status" = JSVal.str "pending"
  swap
  · simp [processSMSQueue, hs, gatewayCalls]
  by_cases hp : truthy (getProp smsData "phoneNumber") = true
  swap
  · simp only [Bool.not_eq_true] at hp
    simp [processSMSQueue, hs, hp, gatewayCalls]
  by_cases hm : truthy (getProp smsData "message") = true
  swap
  · simp only [Bool.not_eq_true] at hm
    simp [processSMSQueue, hs, hm, gatewayCalls]
  rw [processSMSQueue_no_section lib smsData hs hp hm]
  rfl

/-- In a list of one status nothing follows its element. -/
theorem nothing_after_single (a : JSVal) (pre : List JSVal) (v : JSVal) (post : List JSVal)
    (h : [a] = pre ++ v :: post) : post = [] := by
  rcases pre with _ | ⟨p, pre⟩
  · simp at h; exact h.2
  · rcases pre with _ | ⟨q, pre⟩ <;> simp at h

/-- In a list of two statuses whose first is not terminal, nothing follows a
terminal element. -/
theorem nothing_after_terminal_pair (a b : JSVal) (ha : ¬ isTerminal a)
    (pre : List JSVal) (v : JSVal) (post : List JSVal)
    (h : [a, b] = pre ++ v :: post) (hv : isTerminal v) : post = [] := by
  rcases pre with _ | ⟨p, pre⟩
  · simp at h
    exact absurd (h.1 ▸ hv) ha
  · rcases pre with _ | ⟨q, pre⟩
    · simp at h; exact h.2.2
    · rcases pre with _ | ⟨r, pre⟩ <;> simp at h

/-- The status 'processing' is not terminal. -/
theorem processing_not_terminal : ¬ isTerminal (JSVal.str "processing") := by
  unfold isTerminal; decide

/-- C4, amended: for every record, every configuration that has a `twilio`
section and every library, the statuses the worker writes are one of [],
['failed'], ['processing','completed'], ['processing','failed']; they are []
exactly when the record is not pending; they are ['failed'] with no gateway
call exactly when the record is pending and phoneNumber or message is
missing, or a setting is missing, or the Twilio client cannot be built from
the settings; a pending record ends in 'completed' or 'failed'; nothing is
written after a terminal status; and the worker returns null without
throwing. -/
theorem processSMSQueue_status_machine (config : JSObj) (lib : Twilio) (smsData : JSObj) :
    (statusWrites (processSMSQueue (some config) lib smsData).1 = []
      ∨ statusWrites (processSMSQueue (some config) lib smsData).1 = [JSVal.str "failed"]
      ∨ statusWrites (processSMSQueue (some config) lib smsData).1
          = [JSVal.str "processing", JSVal.str "completed"]
      ∨ statusWrites (processSMSQueue (some config) lib smsData).1
          = [JSVal.str "processing", JSVal.str "failed"])
    ∧ (statusWrites (processSMSQueue (some config) lib smsData).1 = []
        ↔ getProp smsData "status" ≠ JSVal.str "pending")
    ∧ ((statusWrites (processSMSQueue (some config) lib smsData).1 = [JSVal.str "failed"]
          ∧ gatewayCalls (processSMSQueue (some config) lib smsData).1 = [])
        ↔ (getProp smsData "status" = JSVal.str "pending"
            ∧ (truthy (getProp smsData "phoneNumber") = false
              ∨ truthy (getProp smsData "message") = false
              ∨ ¬ configured config
              ∨ ∃ error, lib.twilio (getProp config "account_sid")
                  (getProp config "auth_token") = Except.error error)))
    ∧ (statusWrites (processSMSQueue (some config) lib smsData).1 = [JSVal.str "failed"]
        → gatewayCalls (processSMSQueue (some config) lib smsData).1 = [])
    ∧ (getProp smsData "status" = JSVal.str "pending"
        → ∃ v, (statusWrites (processSMSQueue (some config) lib smsData).1).getLast? = some v
            ∧ isTerminal v)
    ∧ (∀ pre v post, statusWrites (processSMSQueue (some config) lib smsData).1 = pre ++ v :: post
        → isTerminal v → post = [])
    ∧ (processSMSQueue (some config) lib smsData).2 = Outcome.returned JSVal.null := by
  rcases processSMSQueue_paths config lib smsData with
    ⟨hs, h⟩ | ⟨hs, hf, h⟩ | ⟨hs, hp, hm, hc, h⟩ | ⟨hs, hp, hm, hc, e, ht, h⟩
    | ⟨hs, hp, hm, hc, ht, e, hg, h⟩ | ⟨hs, hp, hm, hc, ht, m, hg, h⟩
  · rw [h]
    refine ⟨Or.inl rfl, ?_, ?_, ?_, ?_, ?_, rfl⟩
    · simp [statusWrites, updates, hs]
    · simp [statusWrites, updates, hs]
    · simp [statusWrites, updates]
    · intro hp; exact absurd hp hs
    · intro pre v post hsplit; simp [statusWrites, updates] at hsplit
  · rw [h]
    have hseq : statusWrites
        [Effect.update [("status", JSVal.str "failed"), ("error", JSVal.str "Invalid data")]]
        = [JSVal.str "failed"] := rfl
    refine ⟨Or.inr (Or.inl hseq), ?_, ?_, ?_, ?_, ?_, rfl⟩
    · simp [hseq, hs]
    · simp only [hseq, gatewayCalls, hs, true_and]
      refine ⟨fun _ => ?_, fun _ => trivial⟩
      rcases hf with hf | hf
      · exact Or.inl hf
      · exact Or.inr (Or.inl hf)
    · intro _; rfl
    · intro _; exact ⟨JSVal.str "failed", by rw [hseq]; rfl, Or.inr rfl⟩
    · intro pre v post hsplit _
      rw [hseq] at hsplit
      exact nothing_after_single _ pre v post hsplit
  · rw [h]
    have hseq : statusWrites
        [Effect.update
          [("status", JSVal.str "failed"), ("error", JSVal.str "SMS service not configured")]]
        = [JSVal.str "failed"] := rfl
    refine ⟨Or.inr (Or.inl hseq), ?_, ?_, ?_, ?_, ?_, rfl⟩
    · simp [hseq, hs]
    · simp only [hseq, gatewayCalls, hs, true_and]
      exact ⟨fun _ => Or.inr (Or.inr (Or.inl hc)), fun _ => trivial⟩
    · intro _; rfl
    · intro _; exact ⟨JSVal.str "failed", by rw [hseq]; rfl, Or.inr rfl⟩
    · intro pre v post hsplit _
      rw [hseq] at hsplit
      exact nothing_after_single _ pre v post hsplit
  · rw [h]
    obtain ⟨hseq, hcalls, _⟩ := processSMSQueue_catch_status e
    refine ⟨Or.inr (Or.inl hseq), ?_, ?_, ?_, ?_, ?_, rfl⟩
    · simp [hseq, hs]
    · simp only [hseq, hcalls, hs, true_and]
      exact ⟨fun _ => Or.inr (Or.inr (Or.inr ⟨e, ht⟩)), fun _ => trivial⟩
    · intro _; exact hcalls
    · intro _; exact ⟨JSVal.str "failed", by rw [hseq]; rfl, Or.inr rfl⟩
    · intro pre v post hsplit _
      rw [hseq] at hsplit
      exact nothing_after_single _ pre v post hsplit
  · rw [h]
    have hseq : statusWrites
        (Effect.update [("status", JSVal.str "processing")] ::
          Effect.messagesCreate (createOpts config smsData) :: processSMSQueue_catch e)
        = [JSVal.str "processing", JSVal.str "failed"] := by
      simp [processSMSQueue_catch, statusWrites, updates, getProp, List.lookup]
    refine ⟨Or.inr (Or.inr (Or.inr hseq)), ?_, ?_, ?_, ?_, ?_, rfl⟩
    · simp [hseq, hs]
    · simp only [hseq, hs, true_and]
      constructor
      · intro hl; simp at hl
      · rintro (hx | hx | hx | ⟨e', he'⟩)
        · rw [hp] at hx; cases hx
        · rw [hm] at hx; cases hx
        · exact absurd hc hx
        · rw [ht] at he'; cases he'
    · intro hl; rw [hseq] at hl; simp at hl
    · intro _; exact ⟨JSVal.str "failed", by rw [hseq]; rfl, Or.inr rfl⟩
    · intro pre v post hsplit hv
      rw [hseq] at hsplit
      exact nothing_after_terminal_pair _ _ processing_not_terminal pre v post hsplit hv
  · rw [h]
    have hseq : statusWrites
        [Effect.update [("status", JSVal.str "processing")],
         Effect.messagesCreate (createOpts config smsData),
         Effect.update
           [("status", JSVal.str "completed"),
            ("twilioSid", getProp m "sid"),
            ("completedAt", ServerValue_TIMESTAMP)]]
        = [JSVal.str "processing", JSVal.str "completed"] := by
      simp [statusWrites, updates, getProp, List.lookup]
    refine ⟨Or.inr (Or.inr (Or.inl hseq)), ?_, ?_, ?_, ?_, ?_, rfl⟩
    · simp [hseq, hs]
    · simp only [hseq, hs, true_and]
      constructor
      · intro hl; simp at hl
      · rintro (hx | hx | hx | ⟨e', he'⟩)
        · rw [hp] at hx; cases hx
        · rw [hm] at hx; cases hx
        · exact absurd hc hx
        · rw [ht] at he'; cases he'
    · intro hl; rw [hseq] at hl; simp at hl
    · intro _; exact ⟨JSVal.str "completed", by rw [hseq]; rfl, Or.inl rfl⟩
    · intro pre v post hsplit hv
      rw [hseq] at hsplit
      exact nothing_after_terminal_pair _ _ processing_not_terminal pre v post hsplit hv

/-- C4 as stated fails: with the placeholder account identifier all three
settings are present and the record is pending with both fields, yet the
client cannot be built, so the worker writes ['failed'] and never calls the
gateway. -/
theorem processSMSQueue_status_machine_counterexample :
    ¬ ((statusWrites (processSMSQueue (some placeholderConfig) checkingLib sampleRecord).1
          = [JSVal.str "failed"]
        ∧ gatewayCalls (processSMSQueue (some placeholderConfig) checkingLib sampleRecord).1 = [])
      ↔ (getProp sampleRecord "status" = JSVal.str "pending"
          ∧ (truthy (getProp sampleRecord "phoneNumber") = false
            ∨ truthy (getProp sampleRecord "message") = false
            ∨ ¬ configured placeholderConfig))) := by
  decide

/-- With the settings present and both fields non-empty, `sendSMS` goes by
the pattern: a phone number that fails it is rejected without any effect. -/
theorem sendSMS_bad_format (config : JSObj) (lib : Twilio) (data : JSObj)
    (hc : configured config)
    (hp : truthy (getProp data "phoneNumber") = true)
    (hm : truthy (getProp data "message") = true)
    (hre : phoneRegex_test (getProp data "phoneNumber") = false) :
    sendSMS (some config) lib (some data) = ([], Outcome.returned invalidPhoneFormat) := by
  obtain ⟨h1, h2, h3⟩ := hc
  simp [sendSMS, h1, h2, h3, hp, hm, hre, invalidPhoneFormat]

/-- With the settings present and both fields non-empty, a POST to
`sendSMSHTTP` with a phone number that fails the pattern is answered 400. -/
theorem sendSMSHTTP_bad_format (config : JSObj) (lib : Twilio) (body : JSObj)
    (hc : configured config)
    (hp : truthy (getProp body "phoneNumber") = true)
    (hm : truthy (getProp body "message") = true)
    (hre : phoneRegex_test (getProp body "phoneNumber") = false) :
    sendSMSHTTP (some config) lib { method := "POST", body := body }
      = (corsHeaders ++ [Effect.respond 400 (ResBody.json invalidPhoneFormat)],
         Outcome.returned ()) := by
  obtain ⟨h1, h2, h3⟩ := hc
  simp [sendSMSHTTP, h1, h2, h3, hp, hm, hre, invalidPhoneFormat]

/-- With the settings present, `sendSMS` rejects a payload object with an
empty or absent field without any effect. -/
theorem sendSMS_missing (config : JSObj) (lib : Twilio) (data : JSObj)
    (hc : configured config)
    (hmissing : truthy (getProp data "phoneNumber") = false
      ∨ truthy (getProp data "message") = false) :
    sendSMS (some config) lib (some data) = ([], Outcome.returned missingField) := by
  obtain ⟨h1, h2, h3⟩ := hc
  rcases hmissing with h | h <;> simp [sendSMS, h1, h2, h3, h, missingField]

/-- With the settings present, a POST to `sendSMSHTTP` with an empty or
absent field is answered 400. -/
theorem sendSMSHTTP_missing (config : JSObj) (lib : Twilio) (body : JSObj)
    (hc : configured config)
    (hmissing : truthy (getProp body "phoneNumber") = false
      ∨ truthy (getProp body "message") = false) :
    sendSMSHTTP (some config) lib { method := "POST", body := body }
      = (corsHeaders ++ [Effect.respond 400 (ResBody.json missingField)],
         Outcome.returned ()) := by
  obtain ⟨h1, h2, h3⟩ := hc
  rcases hmissing with h | h <;> simp [sendSMSHTTP, h1, h2, h3, h, missingField]

/-- With the settings present and a payload that passes validation,
`sendSMS` enters its `try` block. -/
theorem sendSMS_valid (config : JSObj) (lib : Twilio) (data : JSObj)
    (hc : configured config)
    (hp : truthy (getProp data "phoneNumber") = true)
    (hm : truthy (getProp data "message") = true)
    (hre : phoneRegex_test (getProp data "phoneNumber") = true) :
    sendSMS (some config) lib (some data) =
      match lib.twilio (getProp config "account_sid") (getProp config "auth_token") with
      | Except.error error => ([], Outcome.returned (sendSMS_catch error))
      | Except.ok () =>
        match lib.create (getProp config "account_sid") (getProp config "auth_token")
          (createOpts config data) with
        | Except.error error =>
          ([Effect.messagesCreate (createOpts config data)],
           Outcome.returned (sendSMS_catch error))
        | Except.ok twilioMessage =>
          ([Effect.messagesCreate (createOpts config data)],
           Outcome.returned
             [("success", JSVal.bool true),
              ("message", JSVal.str "SMS sent successfully"),
              ("sid", getProp twilioMessage "sid")]) := by
  obtain ⟨h1, h2, h3⟩ := hc
  simp [sendSMS, h1, h2, h3, hp, hm, hre, createOpts]

/-- With the settings present and a body that passes validation, a POST to
`sendSMSHTTP` enters its `try` block. -/
theorem sendSMSHTTP_valid (config : JSObj) (lib : Twilio) (body : JSObj)
    (hc : configured config)
    (hp : truthy (getProp body "phoneNumber") = true)
    (hm : truthy (getProp body "message") = true)
    (hre : phoneRegex_test (getProp body "phoneNumber") = true) :
    sendSMSHTTP (some config) lib { method := "POST", body := body } =
      match lib.twilio (getProp config "account_sid") (getProp config "auth_token") with
      | Except.error error => (corsHeaders ++ sendSMSHTTP_catch error, Outcome.returned ())
      | Except.ok () =>
        match lib.create (getProp config "account_sid") (getProp config "auth_token")
          (createOpts config body) with
        | Except.error error =>
          (corsHeaders ++ Effect.messagesCreate (createOpts config body)
            :: sendSMSHTTP_catch error, Outcome.returned ())
        | Except.ok twilioMessage =>
          (corsHeaders ++
            [Effect.messagesCreate (createOpts config body),
             Effect.respond 200 (ResBody.json
               [("success", JSVal.bool true),
                ("message", JSVal.str "SMS sent successfully"),
                ("sid", getProp twilioMessage "sid")])],
           Outcome.returned ()) := by
  obtain ⟨h1, h2, h3⟩ := hc
  simp [sendSMSHTTP, h1, h2, h3, hp, hm, hre, createOpts]

/-- C5 as stated fails: the empty string does not match the pattern, yet
with the settings present `sendSMS` and `sendSMSHTTP` reject it with the
missing-field failure, not with the invalid-format failure. -/
theorem validator_phone_format_counterexample :
    phoneRegex_test (JSVal.str "") = false
    ∧ (sendSMS (some sampleConfig) checkingLib
        (some (payloadOf (JSVal.str "") (JSVal.str "hi")))).2
        ≠ Outcome.returned invalidPhoneFormat
    ∧ (sendSMS (some sampleConfig) checkingLib
        (some (payloadOf (JSVal.str "") (JSVal.str "hi")))).2
        = Outcome.returned missingField
    ∧ responses (sendSMSHTTP (some sampleConfig) checkingLib
        { method := "POST", body := payloadOf (JSVal.str "") (JSVal.str "hi") }).1
        = [(400, ResBody.json missingField)] := by
  decide

/-- C5, amended: with the settings present, for every payload whose
phoneNumber and message are both non-empty and whose phoneNumber does not
match `^\+[1-9]\d{1,14}$`, `sendSMS` and a POST to `sendSMSHTTP` reject with
the invalid-format failure and call nothing; so "1234567890" and "+0123"
are rejected with the invalid-format failure; the empty string is rejected
with the missing-field failure; and "+14155552671" matches the pattern and
is not rejected by validation. -/
theorem validator_phone_format (config : JSObj) (lib : Twilio) (message : JSVal)
    (hc : configured config) (hm : truthy message = true) :
    (∀ data : JSObj, truthy (getProp data "phoneNumber") = true
        → truthy (getProp data "message") = true
        → phoneRegex_test (getProp data "phoneNumber") = false
        → sendSMS (some config) lib (some data) = ([], Outcome.returned invalidPhoneFormat)
          ∧ sendSMSHTTP (some config) lib { method := "POST", body := data }
              = (corsHeaders ++ [Effect.respond 400 (ResBody.json invalidPhoneFormat)],
                 Outcome.returned ()))
    ∧ (sendSMS (some config) lib (some (payloadOf (JSVal.str "1234567890") message))
          = ([], Outcome.returned invalidPhoneFormat)
        ∧ sendSMSHTTP (some config) lib
            { method := "POST", body := payloadOf (JSVal.str "1234567890") message }
            = (corsHeaders ++ [Effect.respond 400 (ResBody.json invalidPhoneFormat)],
               Outcome.returned ()))
    ∧ (sendSMS (some config) lib (some (payloadOf (JSVal.str "+0123") message))
          = ([], Outcome.returned invalidPhoneFormat)
        ∧ sendSMSHTTP (some config) lib
            { method := "POST", body := payloadOf (JSVal.str "+0123") message }
            = (corsHeaders ++ [Effect.respond 400 (ResBody.json invalidPhoneFormat)],
               Outcome.returned ()))
    ∧ (sendSMS (some config) lib (some (payloadOf (JSVal.str "") message))
          = ([], Outcome.returned missingField)
        ∧ sendSMSHTTP (some config) lib
            { method := "POST", body := payloadOf (JSVal.str "") message }
            = (corsHeaders ++ [Effect.respond 400 (ResBody.json missingField)],
               Outcome.returned ()))
    ∧ (phoneRegex_test (JSVal.str "+14155552671") = true
        ∧ (sendSMS (some config) lib (some (payloadOf (JSVal.str "+14155552671") message))).2
            ≠ Outcome.returned invalidPhoneFormat
        ∧ (sendSMS (some config) lib (some (payloadOf (JSVal.str "+14155552671") message))).2
            ≠ Outcome.returned missingField
        ∧ ∀ b, (400, b) ∉ responses (sendSMSHTTP (some config) lib
            { method := "POST", body := payloadOf (JSVal.str "+14155552671") message }).1) := by
  have hmsg : ∀ p, getProp (payloadOf p message) "message" = message := fun p => by
    simp [getProp, payloadOf, List.lookup]
  have hph : ∀ p, getProp (payloadOf p message) "phoneNumber" = p := fun p => by
    simp [getProp, payloadOf, List.lookup]
  refine ⟨fun data hp hm' hre => ⟨sendSMS_bad_format config lib data hc hp hm' hre,
      sendSMSHTTP_bad_format config lib data hc hp hm' hre⟩, ⟨?_, ?_⟩, ⟨?_, ?_⟩, ⟨?_, ?_⟩, ?_⟩
  · exact sendSMS_bad_format config lib _ hc (by rw [hph]; decide) (by rw [hmsg]; exact hm)
      (by rw [hph]; decide)
  · exact sendSMSHTTP_bad_format config lib _ hc (by rw [hph]; decide) (by rw [hmsg]; exact hm)
      (by rw [hph]; decide)
  · exact sendSMS_bad_format config lib _ hc (by rw [hph]; decide) (by rw [hmsg]; exact hm)
      (by rw [hph]; decide)
  · exact sendSMSHTTP_bad_format config lib _ hc (by rw [hph]; decide) (by rw [hmsg]; exact hm)
      (by rw [hph]; decide)
  · exact sendSMS_missing config lib _ hc (Or.inl (by rw [hph]; decide))
  · exact sendSMSHTTP_missing config lib _ hc (Or.inl (by rw [hph]; decide))
  · have hv := sendSMS_valid config lib (payloadOf (JSVal.str "+14155552671") message) hc
      (by rw [hph]; decide) (by rw [hmsg]; exact hm) (by rw [hph]; decide)
    have hw := sendSMSHTTP_valid config lib (payloadOf (JSVal.str "+14155552671") message) hc
      (by rw [hph]; decide) (by rw [hmsg]; exact hm) (by rw [hph]; decide)
    refine ⟨by decide, ?_, ?_, ?_⟩
    · rw [hv]
      cases lib.twilio (getProp config "account_sid") (getProp config "auth_token") with
      | error e => simp [sendSMS_catch, invalidPhoneFormat]
      | ok u =>
        cases lib.create (getProp config "account_sid") (getProp config "auth_token")
            (createOpts config (payloadOf (JSVal.str "+14155552671") message)) with
        | error e => simp [sendSMS_catch, invalidPhoneFormat]
        | ok m => simp [invalidPhoneFormat]
    · rw [hv]
      cases lib.twilio (getProp config "account_sid") (getProp config "auth_token") with
      | error e => simp [sendSMS_catch, missingField]
      | ok u =>
        cases lib.create (getProp config "account_sid") (getProp config "auth_token")
            (createOpts config (payloadOf (JSVal.str "+14155552671") message)) with
        | error e => simp [sendSMS_catch, missingField]
        | ok m => simp [missingField]
    · intro b
      rw [hw]
      cases lib.twilio (getProp config "account_sid") (getProp config "auth_token") with
      | error e => simp [sendSMSHTTP_catch, corsHeaders, responses]
      | ok u =>
        cases lib.create (getProp config "account_sid") (getProp config "auth_token")
            (createOpts config (payloadOf (JSVal.str "+14155552671") message)) with
        | error e => simp [sendSMSHTTP_catch, corsHeaders, responses]
        | ok m => simp [corsHeaders, responses]

/-- The format check on the payload with phoneNumber "+0123". -/
theorem validator_phone_format_witness :
    sendSMS (some sampleConfig) checkingLib
        (some (payloadOf (JSVal.str "+0123") (JSVal.str "hi")))
        = ([], Outcome.returned invalidPhoneFormat)
    ∧ sendSMSHTTP (some sampleConfig) checkingLib
        { method := "POST", body := payloadOf (JSVal.str "+0123") (JSVal.str "hi") }
        = (corsHeaders ++ [Effect.respond 400 (ResBody.json invalidPhoneFormat)],
           Outcome.returned ()) :=
  (validator_phone_format sampleConfig checkingLib (JSVal.str "hi") (by decide) (by decide)).1
    (payloadOf (JSVal.str "+0123") (JSVal.str "hi")) (by decide) (by decide) (by decide)

/-- With the settings present, a payload object in which phoneNumber or
message is absent or empty (or otherwise falsy) gets the missing-field
failure from `sendSMS` and a 400 with it from a POST to `sendSMSHTTP`;
neither calls the gateway. -/
theorem missing_fields_rejected (config : JSObj) (lib : Twilio) (data : JSObj)
    (hc : configured config)
    (hmissing : truthy (getProp data "phoneNumber") = false
      ∨ truthy (getProp data "message") = false) :
    sendSMS (some config) lib (some data) = ([], Outcome.returned missingField)
    ∧ gatewayCalls (sendSMS (some config) lib (some data)).1 = []
    ∧ sendSMSHTTP (some config) lib { method := "POST", body := data }
        = (corsHeaders ++ [Effect.respond 400 (ResBody.json missingField)],
           Outcome.returned ())
    ∧ gatewayCalls (sendSMSHTTP (some config) lib { method := "POST", body := data }).1 = []
    ∧ responses (sendSMSHTTP (some config) lib { method := "POST", body := data }).1
        = [(400, ResBody.json missingField)] := by
  have h1 := sendSMS_missing config lib data hc hmissing
  have h2 := sendSMSHTTP_missing config lib data hc hmissing
  refine ⟨h1, by rw [h1]; rfl, h2, by rw [h2]; rfl, by rw [h2]; rfl⟩

/-- C6 fails on `sendSMS` called without argument: with all three settings
present and the payload `null`, which holds neither phoneNumber nor message,
the destructuring throws a `TypeError`; the handler returns no missing-field
failure (nor any other object), while a payload object without the fields,
and a POST to `sendSMSHTTP` without them, do get the missing-field
failure. -/
theorem sendSMS_null_payload_throws :
    sendSMS (some sampleConfig) checkingLib none = ([], Outcome.threw typeError)
    ∧ (sendSMS (some sampleConfig) checkingLib none).2 ≠ Outcome.returned missingField
    ∧ sendSMS (some sampleConfig) checkingLib (some [])
        = ([], Outcome.returned missingField)
    ∧ responses (sendSMSHTTP (some sampleConfig) checkingLib
        { method := "POST", body := [] }).1 = [(400, ResBody.json missingField)] := by
  decide

/-- A configuration section that lacks a setting makes the configuration
test of the handlers succeed. -/
theorem not_configured_test (config : JSObj) (hc : ¬ configured config) :
    (!truthy (getProp config "account_sid") || !truthy (getProp config "auth_token")
      || !truthy (getProp config "phone_number")) = true := by
  unfold configured at hc
  by_contra hne
  apply hc
  simp only [Bool.or_eq_true, Bool.not_eq_true', not_or, Bool.not_eq_false] at hne
  exact ⟨hne.1.1, hne.1.2, hne.2⟩

/-- C7: when any one of the three settings is absent or empty, be it in a
`twilio` section that lacks it or because the configuration has no `twilio`
section at all, none of the three handlers calls the gateway, whatever the
library and the input. -/
theorem missing_configuration_no_gateway (config : Option JSObj) (lib : Twilio)
    (data : Option JSObj) (req : Request) (smsData : JSObj)
    (hc : ∀ twilioSection, config = some twilioSection →
      truthy (getProp twilioSection "account_sid") = false
      ∨ truthy (getProp twilioSection "auth_token") = false
      ∨ truthy (getProp twilioSection "phone_number") = false) :
    gatewayCalls (sendSMS config lib data).1 = []
    ∧ gatewayCalls (sendSMSHTTP config lib req).1 = []
    ∧ gatewayCalls (processSMSQueue config lib smsData).1 = [] := by
  cases config with
  | none =>
    refine ⟨rfl, ?_, processSMSQueue_no_section_calls lib smsData⟩
    unfold sendSMSHTTP
    split
    · rfl
    · split <;> rfl
  | some c =>
    have hn : ¬ configured c := by
      rintro ⟨h1, h2, h3⟩
      rcases hc c rfl with h | h | h
      · rw [h1] at h; cases h
      · rw [h2] at h; cases h
      · rw [h3] at h; cases h
    have ht := not_configured_test c hn
    refine ⟨?_, ?_, ?_⟩
    · unfold sendSMS
      simp only [ht, if_true]
      rfl
    · unfold sendSMSHTTP
      simp only [ht, if_true]
      split
      · rfl
      · split <;> rfl
    · rcases processSMSQueue_paths c lib smsData with
        ⟨_, h⟩ | ⟨_, _, h⟩ | ⟨_, _, _, _, h⟩ | ⟨_, _, _, hcfg, _⟩
        | ⟨_, _, _, hcfg, _⟩ | ⟨_, _, _, hcfg, _⟩
      · rw [h]; rfl
      · rw [h]; rfl
      · rw [h]; rfl
      · exact absurd hcfg hn
      · exact absurd hcfg hn
      · exact absurd hcfg hn

/-- No gateway call when the auth secret is empty, on inputs that are
otherwise valid. -/
theorem missing_configuration_no_gateway_witness :
    gatewayCalls (sendSMS (some [("account_sid", JSVal.str "AC0123456789abcdef"),
        ("auth_token", JSVal.str ""), ("phone_number", JSVal.str "+15005550006")])
        checkingLib (some (payloadOf (JSVal.str "+14155552671") (JSVal.str "hi")))).1 = []
    ∧ gatewayCalls (sendSMSHTTP (some [("account_sid", JSVal.str "AC0123456789abcdef"),
        ("auth_token", JSVal.str ""), ("phone_number", JSVal.str "+15005550006")])
        checkingLib
        { method := "POST", body := payloadOf (JSVal.str "+14155552671") (JSVal.str "hi") }).1
        = []
    ∧ gatewayCalls (processSMSQueue (some [("account_sid", JSVal.str "AC0123456789abcdef"),
        ("auth_token", JSVal.str ""), ("phone_number", JSVal.str "+15005550006")])
        checkingLib sampleRecord).1 = [] :=
  missing_configuration_no_gateway
    (some [("account_sid", JSVal.str "AC0123456789abcdef"),
     ("auth_token", JSVal.str ""), ("phone_number", JSVal.str "+15005550006")])
    checkingLib (some (payloadOf (JSVal.str "+14155552671") (JSVal.str "hi")))
    { method := "POST", body := payloadOf (JSVal.str "+14155552671") (JSVal.str "hi") }
    sampleRecord
    (fun twilioSection h => by
      cases h
      exact Or.inr (Or.inl (by decide)))

/-- The `catch` block of `sendSMS` reports by the error mapping, with the
long text for vendor code 21608. -/
theorem sendSMS_catch_mapping (error : JSObj) :
    ∃ message code, sendSMS_catch error =
        [("success", JSVal.bool false), ("message", message), ("error", code)]
      ∧ ErrorMapping "Unverified phone number. Please verify your Twilio number."
          error message code := by
  refine ⟨_, _, rfl, ?_, ?_, ?_, ?_, ?_, ?_⟩
  · intro h; simp [h]
  · intro h; simp [h]
  · intro h1 h2 h3; simp [h1, h2, h3]
  · intro h1 h2 h3; simp [h1, h2, h3]
  · intro h; simp [jsOr, h]
  · intro h; simp [jsOr, h]

/-- The `catch` block of `sendSMSHTTP` answers 500 and reports by the error
mapping, with the long text for vendor code 21608. -/
theorem sendSMSHTTP_catch_mapping (error : JSObj) :
    ∃ message code, sendSMSHTTP_catch error =
        [Effect.respond 500 (ResBody.json
          [("success", JSVal.bool false), ("message", message), ("error", code)])]
      ∧ ErrorMapping "Unverified phone number. Please verify your Twilio number."
          error message code := by
  refine ⟨_, _, rfl, ?_, ?_, ?_, ?_, ?_, ?_⟩
  · intro h; simp [h]
  · intro h; simp [h]
  · intro h1 h2 h3; simp [h1, h2, h3]
  · intro h1 h2 h3; simp [h1, h2, h3]
  · intro h; simp [jsOr, h]
  · intro h; simp [jsOr, h]

/-- The `catch` block of `processSMSQueue` writes the failure by the error
mapping, with the short text for vendor code 21608. -/
theorem processSMSQueue_catch_mapping (error : JSObj) :
    ∃ message code, processSMSQueue_catch error =
        [Effect.update
          [("status", JSVal.str "failed"), ("error", message), ("errorCode", code),
           ("failedAt", ServerValue_TIMESTAMP)]]
      ∧ ErrorMapping "Unverified phone number" error message code := by
  refine ⟨_, _, rfl, ?_, ?_, ?_, ?_, ?_, ?_⟩
  · intro h; simp [h]
  · intro h; simp [h]
  · intro h1 h2 h3; simp [h1, h2, h3]
  · intro h1 h2 h3; simp [h1, h2, h3]
  · intro h; simp [jsOr, h]
  · intro h; simp [jsOr, h]

/-- C8 fails on the queue worker: when the gateway call throws an error with
vendor code 21608, `processSMSQueue` records the message 'Unverified phone
number', which is not the text 'Unverified phone number. Please verify your
Twilio number.' that `sendSMS` and `sendSMSHTTP` report for the same error. -/
theorem processSMSQueue_unverified_text :
    (processSMSQueue (some sampleConfig) (failingLib [("code", JSVal.num 21608)])
        sampleRecord).1 =
      [Effect.update [("status", JSVal.str "processing")],
       Effect.messagesCreate (createOpts sampleConfig sampleRecord),
       Effect.update
         [("status", JSVal.str "failed"),
          ("error", JSVal.str "Unverified phone number"),
          ("errorCode", JSVal.num 21608),
          ("failedAt", ServerValue_TIMESTAMP)]]
    ∧ JSVal.str "Unverified phone number"
        ≠ JSVal.str "Unverified phone number. Please verify your Twilio number."
    ∧ sendSMS (some sampleConfig) (failingLib [("code", JSVal.num 21608)])
        (some (payloadOf (JSVal.str "+14155552671") (JSVal.str "hi"))) =
      ([Effect.messagesCreate (createOpts sampleConfig
          (payloadOf (JSVal.str "+14155552671") (JSVal.str "hi")))],
       Outcome.returned
         [("success", JSVal.bool false),
          ("message", JSVal.str "Unverified phone number. Please verify your Twilio number."),
          ("error", JSVal.num 21608)])
    ∧ responses (sendSMSHTTP (some sampleConfig) (failingLib [("code", JSVal.num 21608)])
        { method := "POST",
          body := payloadOf (JSVal.str "+14155552671") (JSVal.str "hi") }).1 =
      [(500, ResBody.json
         [("success", JSVal.bool false),
          ("message", JSVal.str "Unverified phone number. Please verify your Twilio number."),
          ("error", JSVal.num 21608)])] := by
  decide

/-- C9 fails on the queue worker: the pending record with phoneNumber
'1234567890', which does not match `^\+[1-9]\d{1,14}$`, reaches the gateway
as the recipient of the one gateway call the worker makes. -/
theorem processSMSQueue_sends_unvalidated_phone :
    phoneRegex_test (getProp badPhoneRecord "phoneNumber") = false
    ∧ gatewayCalls (processSMSQueue (some sampleConfig) checkingLib badPhoneRecord).1 =
        [[("body", JSVal.str "hi"),
          ("from", JSVal.str "+15005550006"),
          ("to", JSVal.str "1234567890")]]
    ∧ gatewayCalls (sendSMS (some sampleConfig) checkingLib (some badPhoneRecord)).1 = []
    ∧ gatewayCalls (sendSMSHTTP (some sampleConfig) checkingLib
        { method := "POST", body := badPhoneRecord }).1 = [] := by
  decide

/-- The CORS headers are no response. -/
theorem responses_corsHeaders (es : List Effect) :
    responses (corsHeaders ++ es) = responses es := by
  simp [corsHeaders, responses]

/-- The CORS headers are no gateway call. -/
theorem gatewayCalls_corsHeaders (es : List Effect) :
    gatewayCalls (corsHeaders ++ es) = gatewayCalls es := by
  simp [corsHeaders, gatewayCalls]

/-- A POST to `sendSMSHTTP` with a `twilio` section that lacks a setting is
answered 500. -/
theorem sendSMSHTTP_not_configured (config : JSObj) (lib : Twilio) (body : JSObj)
    (hc : ¬ configured config) :
    sendSMSHTTP (some config) lib { method := "POST", body := body }
      = (corsHeaders ++ [Effect.respond 500 (ResBody.json
          [("success", JSVal.bool false),
           ("message", JSVal.str "SMS service not configured")])],
         Outcome.returned ()) := by
  have ht := not_configured_test config hc
  unfold sendSMSHTTP
  simp only [ht, if_true]
  simp

/-- The two method tests that open `sendSMSHTTP`. -/
theorem sendSMSHTTP_methods (config : Option JSObj) (lib : Twilio) (method : String)
    (body : JSObj) :
    (method = "OPTIONS"
      → sendSMSHTTP config lib { method := method, body := body }
        = (corsHeaders ++ [Effect.respond 204 (ResBody.text "")], Outcome.returned ()))
    ∧ (method ≠ "OPTIONS" → method ≠ "POST"
      → sendSMSHTTP config lib { method := method, body := body }
        = (corsHeaders ++ [Effect.respond 405 (ResBody.json
            [("success", JSVal.bool false), ("message", JSVal.str "Method not allowed")])],
           Outcome.returned ())) := by
  refine ⟨?_, ?_⟩
  · intro h; subst h; simp [sendSMSHTTP]
  · intro h1 h2; simp [sendSMSHTTP, h1, h2]

/-- A POST to `sendSMSHTTP` when the configuration has no `twilio` section:
the headers are set and the handler throws. -/
theorem sendSMSHTTP_no_section (lib : Twilio) (body : JSObj) :
    sendSMSHTTP none lib { method := "POST", body := body }
      = (corsHeaders, Outcome.threw typeError) := by
  simp [sendSMSHTTP]

/-- C10 fails on a POST when the configuration has no `twilio` section, so
that all three credentials are missing: `sendSMSHTTP` sets the three headers
and throws a `TypeError` on reading the account identifier; it sends no
response, neither the 500 of the claim nor any other, whatever the body. -/
theorem sendSMSHTTP_no_section_no_response (lib : Twilio) (body : JSObj) :
    sendSMSHTTP none lib { method := "POST", body := body }
      = (corsHeaders, Outcome.threw typeError)
    ∧ responses (sendSMSHTTP none lib { method := "POST", body := body }).1 = []
    ∧ (responses (sendSMSHTTP none lib { method := "POST", body := body }).1).length ≠ 1 := by
  have h := sendSMSHTTP_no_section lib body
  refine ⟨h, ?_, ?_⟩
  · rw [h]; rfl
  · rw [h]; decide

/-- The responses of `sendSMSHTTP` when the configuration has a `twilio`
section: OPTIONS gives 204 with an empty body; a method other than POST and
OPTIONS gives 405; a POST with a setting missing gives 500; a POST with the
settings present and phoneNumber or message missing, or phoneNumber not
matching the pattern, gives 400; a POST that passes validation gives 200
when the send succeeds and 500 when building the client or sending throws;
there is exactly one response, and the handler returns. -/
theorem sendSMSHTTP_status_codes_with_section (config : JSObj) (lib : Twilio)
    (req : Request) :
    (req.method = "OPTIONS"
      → (sendSMSHTTP (some config) lib req).1
          = corsHeaders ++ [Effect.respond 204 (ResBody.text "")])
    ∧ (req.method ≠ "OPTIONS" → req.method ≠ "POST"
      → responses (sendSMSHTTP (some config) lib req).1 =
          [(405, ResBody.json
            [("success", JSVal.bool false), ("message", JSVal.str "Method not allowed")])])
    ∧ (req.method = "POST" → ¬ configured config
      → responses (sendSMSHTTP (some config) lib req).1 =
          [(500, ResBody.json
            [("success", JSVal.bool false),
             ("message", JSVal.str "SMS service not configured")])])
    ∧ (req.method = "POST" → configured config
      → (truthy (getProp req.body "phoneNumber") = false
          ∨ truthy (getProp req.body "message") = false
          ∨ phoneRegex_test (getProp req.body "phoneNumber") = false)
      → ∃ b, responses (sendSMSHTTP (some config) lib req).1 = [(400, ResBody.json b)]
          ∧ gatewayCalls (sendSMSHTTP (some config) lib req).1 = [])
    ∧ (req.method = "POST" → configured config
      → truthy (getProp req.body "phoneNumber") = true
      → truthy (getProp req.body "message") = true
      → phoneRegex_test (getProp req.body "phoneNumber") = true
      → lib.twilio (getProp config "account_sid") (getProp config "auth_token") = Except.ok ()
      → ∀ twilioMessage,
          lib.create (getProp config "account_sid") (getProp config "auth_token")
            (createOpts config req.body) = Except.ok twilioMessage
        → responses (sendSMSHTTP (some config) lib req).1 =
            [(200, ResBody.json
              [("success", JSVal.bool true),
               ("message", JSVal.str "SMS sent successfully"),
               ("sid", getProp twilioMessage "sid")])])
    ∧ (req.method = "POST" → configured config
      → truthy (getProp req.body "phoneNumber") = true
      → truthy (getProp req.body "message") = true
      → phoneRegex_test (getProp req.body "phoneNumber") = true
      → ((∃ error, lib.twilio (getProp config "account_sid") (getProp config "auth_token")
            = Except.error error)
          ∨ (∃ error, lib.create (getProp config "account_sid") (getProp config "auth_token")
            (createOpts config req.body) = Except.error error))
      → ∃ b, responses (sendSMSHTTP (some config) lib req).1 = [(500, ResBody.json b)])
    ∧ (responses (sendSMSHTTP (some config) lib req).1).length = 1
    ∧ (sendSMSHTTP (some config) lib req).2 = Outcome.returned () := by
  obtain ⟨method, body⟩ := req
  simp only
  obtain ⟨hopt, hother⟩ := sendSMSHTTP_methods (some config) lib method body
  have hvalid : configured config
      → truthy (getProp body "phoneNumber") = true
      → truthy (getProp body "message") = true
      → phoneRegex_test (getProp body "phoneNumber") = true
      → (sendSMSHTTP (some config) lib { method := "POST", body := body }).2
          = Outcome.returned ()
        ∧ ∃ c b, (c = 200 ∨ c = 500)
          ∧ responses (sendSMSHTTP (some config) lib { method := "POST", body := body }).1
            = [(c, ResBody.json b)]
          ∧ ((∃ error, lib.twilio (getProp config "account_sid")
                (getProp config "auth_token") = Except.error error)
              ∨ (∃ error, lib.create (getProp config "account_sid")
                (getProp config "auth_token") (createOpts config body) = Except.error error)
              → c = 500)
          ∧ (lib.twilio (getProp config "account_sid") (getProp config "auth_token")
                = Except.ok ()
              → ∀ twilioMessage, lib.create (getProp config "account_sid")
                  (getProp config "auth_token") (createOpts config body)
                  = Except.ok twilioMessage
              → c = 200 ∧ b =
                  [("success", JSVal.bool true),
                   ("message", JSVal.str "SMS sent successfully"),
                   ("sid", getProp twilioMessage "sid")]) := by
    intro hc hp hm hre
    rw [sendSMSHTTP_valid config lib body hc hp hm hre]
    cases ht : lib.twilio (getProp config "account_sid") (getProp config "auth_token") with
    | error e =>
      obtain ⟨m, c, heq, _⟩ := sendSMSHTTP_catch_mapping e
      refine ⟨rfl, 500,
        [("success", JSVal.bool false), ("message", m), ("error", c)],
        Or.inr rfl, ?_, fun _ => rfl, ?_⟩
      · simp only [heq, responses_corsHeaders]; rfl
      · intro hok; cases hok
    | ok u =>
      cases hg : lib.create (getProp config "account_sid") (getProp config "auth_token")
          (createOpts config body) with
      | error e =>
        obtain ⟨m, c, heq, _⟩ := sendSMSHTTP_catch_mapping e
        refine ⟨rfl, 500,
        [("success", JSVal.bool false), ("message", m), ("error", c)],
        Or.inr rfl, ?_, fun _ => rfl, ?_⟩
        · simp only [heq, responses_corsHeaders]; rfl
        · intro _ tm htm; cases htm
      | ok tm =>
        refine ⟨rfl, 200,
          [("success", JSVal.bool true),
           ("message", JSVal.str "SMS sent successfully"),
           ("sid", getProp tm "sid")],
          Or.inl rfl, ?_, ?_, ?_⟩
        · simp only [responses_corsHeaders]; rfl
        · rintro (⟨e, he⟩ | ⟨e, he⟩) <;> cases he
        · intro _ tm' htm'
          cases htm'
          exact ⟨rfl, rfl⟩
  refine ⟨?_, ?_, ?_, ?_, ?_, ?_, ?_, ?_⟩
  · intro h1
    rw [hopt h1]
  · intro h1 h2
    rw [hother h1 h2]; simp only [responses_corsHeaders]; rfl
  · intro h hc; subst h
    rw [sendSMSHTTP_not_configured config lib body hc]
    simp only [responses_corsHeaders]; rfl
  · intro h hc hbad; subst h
    by_cases hmissing : truthy (getProp body "phoneNumber") = false
        ∨ truthy (getProp body "message") = false
    · rw [sendSMSHTTP_missing config lib body hc hmissing]
      refine ⟨missingField, ?_, ?_⟩
      · simp only [responses_corsHeaders]; rfl
      · simp only [gatewayCalls_corsHeaders]; rfl
    · simp only [not_or, Bool.not_eq_false] at hmissing
      have hre : phoneRegex_test (getProp body "phoneNumber") = false := by
        rcases hbad with h | h | h
        · rw [hmissing.1] at h; cases h
        · rw [hmissing.2] at h; cases h
        · exact h
      rw [sendSMSHTTP_bad_format config lib body hc hmissing.1 hmissing.2 hre]
      refine ⟨invalidPhoneFormat, ?_, ?_⟩
      · simp only [responses_corsHeaders]; rfl
      · simp only [gatewayCalls_corsHeaders]; rfl
  · intro h hc hp hm hre hclient tm htm; subst h
    obtain ⟨_, c, b, _, hresp, _, hok⟩ := hvalid hc hp hm hre
    obtain ⟨hc200, hb⟩ := hok hclient tm htm
    rw [hresp, hc200, hb]
  · intro h hc hp hm hre hfail; subst h
    obtain ⟨_, c, b, _, hresp, hthrow, _⟩ := hvalid hc hp hm hre
    exact ⟨b, by rw [hresp, hthrow hfail]⟩
  · by_cases h1 : method = "OPTIONS"
    · rw [hopt h1]; simp only [responses_corsHeaders]; rfl
    by_cases h2 : method = "POST"
    swap
    · rw [hother h1 h2]; simp only [responses_corsHeaders]; rfl
    subst h2
    by_cases hc : configured config
    swap
    · rw [sendSMSHTTP_not_configured config lib body hc]
      simp only [responses_corsHeaders]; rfl
    by_cases hmissing : truthy (getProp body "phoneNumber") = false
        ∨ truthy (getProp body "message") = false
    · rw [sendSMSHTTP_missing config lib body hc hmissing]
      simp only [responses_corsHeaders]; rfl
    simp only [not_or, Bool.not_eq_false] at hmissing
    cases hre : phoneRegex_test (getProp body "phoneNumber") with
    | false =>
      rw [sendSMSHTTP_bad_format config lib body hc hmissing.1 hmissing.2 hre]
      simp only [responses_corsHeaders]; rfl
    | true =>
      obtain ⟨_, c, b, _, hresp, _, _⟩ := hvalid hc hmissing.1 hmissing.2 hre
      rw [hresp]; rfl
  · by_cases h1 : method = "OPTIONS"
    · rw [hopt h1]
    by_cases h2 : method = "POST"
    swap
    · rw [hother h1 h2]
    subst h2
    by_cases hc : configured config
    swap
    · rw [sendSMSHTTP_not_configured config lib body hc]
    by_cases hmissing : truthy (getProp body "phoneNumber") = false
        ∨ truthy (getProp body "message") = false
    · rw [sendSMSHTTP_missing config lib body hc hmissing]
    simp only [not_or, Bool.not_eq_false] at hmissing
    cases hre : phoneRegex_test (getProp body "phoneNumber") with
    | false =>
      rw [sendSMSHTTP_bad_format config lib body hc hmissing.1 hmissing.2 hre]
    | true => exact (hvalid hc hmissing.1 hmissing.2 hre).1

/-- In `sendSMS` and `sendSMSHTTP` the gateway is called only with a
recipient that matches the pattern and a non-empty message body, whatever
the configuration, the library and the input. -/
theorem direct_handlers_validate (config : Option JSObj) (lib : Twilio)
    (data : Option JSObj) (req : Request) (opts : JSObj) :
    (opts ∈ gatewayCalls (sendSMS config lib data).1
      → phoneRegex_test (getProp opts "to") = true ∧ truthy (getProp opts "body") = true)
    ∧ (opts ∈ gatewayCalls (sendSMSHTTP config lib req).1
      → phoneRegex_test (getProp opts "to") = true ∧ truthy (getProp opts "body") = true) := by
  have hto : ∀ (c payload : JSObj), getProp (createOpts c payload) "to"
      = getProp payload "phoneNumber" := fun c payload => by
    simp [createOpts, getProp, List.lookup]
  have hbody : ∀ (c payload : JSObj), getProp (createOpts c payload) "body"
      = getProp payload "message" := fun c payload => by
    simp [createOpts, getProp, List.lookup]
  constructor
  · intro hmem
    cases config with
    | none => simp [sendSMS, gatewayCalls] at hmem
    | some c =>
    by_cases hc : configured c
    swap
    · have ht := not_configured_test c hc
      unfold sendSMS at hmem
      simp only [ht, if_true] at hmem
      simp [gatewayCalls] at hmem
    cases data with
    | none =>
      obtain ⟨h1, h2, h3⟩ := hc
      simp [sendSMS, h1, h2, h3, gatewayCalls] at hmem
    | some payload =>
    by_cases hmissing : truthy (getProp payload "phoneNumber") = false
        ∨ truthy (getProp payload "message") = false
    · rw [sendSMS_missing c lib payload hc hmissing] at hmem
      simp [gatewayCalls] at hmem
    simp only [not_or, Bool.not_eq_false] at hmissing
    cases hre : phoneRegex_test (getProp payload "phoneNumber") with
    | false =>
      rw [sendSMS_bad_format c lib payload hc hmissing.1 hmissing.2 hre] at hmem
      simp [gatewayCalls] at hmem
    | true =>
      rw [sendSMS_valid c lib payload hc hmissing.1 hmissing.2 hre] at hmem
      have hopts : opts = createOpts c payload := by
        cases ht : lib.twilio (getProp c "account_sid") (getProp c "auth_token") with
        | error e => rw [ht] at hmem; simp [gatewayCalls] at hmem
        | ok u =>
          rw [ht] at hmem
          cases hg : lib.create (getProp c "account_sid") (getProp c "auth_token")
              (createOpts c payload) with
          | error e => rw [hg] at hmem; simpa [gatewayCalls] using hmem
          | ok m => rw [hg] at hmem; simpa [gatewayCalls] using hmem
      rw [hopts, hto, hbody]
      exact ⟨hre, hmissing.2⟩
  · intro hmem
    obtain ⟨method, body⟩ := req
    obtain ⟨hopt, hother⟩ := sendSMSHTTP_methods config lib method body
    by_cases h1 : method = "OPTIONS"
    · rw [hopt h1] at hmem; simp [corsHeaders, gatewayCalls] at hmem
    by_cases h2 : method = "POST"
    swap
    · rw [hother h1 h2] at hmem; simp [corsHeaders, gatewayCalls] at hmem
    subst h2
    cases config with
    | none =>
      rw [(sendSMSHTTP_no_section lib body)] at hmem
      simp [corsHeaders, gatewayCalls] at hmem
    | some c =>
    by_cases hc : configured c
    swap
    · rw [sendSMSHTTP_not_configured c lib body hc] at hmem
      simp [corsHeaders, gatewayCalls] at hmem
    by_cases hmissing : truthy (getProp body "phoneNumber") = false
        ∨ truthy (getProp body "message") = false
    · rw [sendSMSHTTP_missing c lib body hc hmissing] at hmem
      simp [corsHeaders, gatewayCalls, missingField] at hmem
    simp only [not_or, Bool.not_eq_false] at hmissing
    cases hre : phoneRegex_test (getProp body "phoneNumber") with
    | false =>
      rw [sendSMSHTTP_bad_format c lib body hc hmissing.1 hmissing.2 hre] at hmem
      simp [corsHeaders, gatewayCalls] at hmem
    | true =>
      rw [sendSMSHTTP_valid c lib body hc hmissing.1 hmissing.2 hre] at hmem
      have hopts : opts = createOpts c body := by
        cases ht : lib.twilio (getProp c "account_sid") (getProp c "auth_token") with
        | error e =>
          rw [ht] at hmem; simp [corsHeaders, gatewayCalls, sendSMSHTTP_catch] at hmem
        | ok u =>
          rw [ht] at hmem
          cases hg : lib.create (getProp c "account_sid") (getProp c "auth_token")
              (createOpts c body) with
          | error e =>
            rw [hg] at hmem
            simpa [corsHeaders, gatewayCalls, sendSMSHTTP_catch] using hmem
          | ok m => rw [hg] at hmem; simpa [corsHeaders, gatewayCalls] using hmem
      rw [hopts, hto, hbody]
      exact ⟨hre, hmissing.2⟩

end SmsService
